import Mathlib

/-!
Verification of package `cloud` (src/cloud/aws.go).

A shallow embedding of the functional-options request builder `constructInput`,
the option constructors, and the launcher `client.CreateInstance`.

Modelling conventions:

* a Go pointer `*T` is `Ptr T = Option T` (`none` is the nil pointer);
* a Go slice `[]T` is `Slice T = Option (List T)` (`none` is the nil slice, which
  `reflect.DeepEqual` tells apart from an empty non-nil slice);
* a Go call that may panic returns `Except Panic _`;
* a Go `(value, error)` result pair is a Lean pair whose second component is
  `Option GoError` (`none` is the nil error);
* an `InstanceOption` closure is the function from the request it is handed to the
  request it leaves behind.
-/

namespace cloud

/-! ## Go and SDK data model -/

/-- Go pointer to a value of type `α`; `none` is nil. -/
abbrev Ptr (α : Type) := Option α

/-- Go slice of `α`; `none` is the nil slice, `some []` an empty non-nil slice. -/
abbrev Slice (α : Type) := Option (List α)

/-- Go builtin `len` on a slice: the nil slice has length 0. -/
def len {α : Type} (s : Slice α) : Nat :=
  match s with
  | none => 0
  | some xs => xs.length

/-- Go slice indexing `s[i]`; `none` stands for the index-out-of-range panic. -/
def index {α : Type} (s : Slice α) (i : Nat) : Option α :=
  match s with
  | none => none
  | some xs => xs.get? i

/-- Run-time panics the modelled code can raise. -/
inductive Panic where
  | nilPointerDereference
  | indexOutOfRange
  deriving DecidableEq, Repr

/-- Go `error` values: the `*errors.errorString` that `fmt.Errorf` (without `%w`) and
`errors.New` build, and the coded errors an SDK client reports. -/
inductive GoError where
  | errorString (s : String)
  | awsErr (code : String) (message : String)
  deriving DecidableEq, Repr

/-- The `Error()` method of a Go error value. -/
def GoError.Error : GoError → String
  | .errorString s => s
  | .awsErr code message => code ++ ": " ++ message

/-- SDK helper `aws.String`: pointer to a copy of the string. -/
def awsString (v : String) : Ptr String := some v

/-- SDK helper `aws.Int64`: pointer to a copy of the integer. -/
def awsInt64 (v : Int) : Ptr Int := some v

/-- The call `fmt.Errorf(format, l)` for a format made of literal text followed by one
`%d` verb, at a slice length `l`: the text followed by `l` in decimal. -/
def fmtErrorf_d (text : String) (l : Nat) : GoError :=
  .errorString (text ++ toString l)

/-- SDK type `ec2.Tag`. -/
structure Tag where
  Key : Ptr String
  Value : Ptr String
  deriving DecidableEq, Repr

/-- SDK type `ec2.TagSpecification`. -/
structure TagSpecification where
  ResourceType : Ptr String
  Tags : Slice (Ptr Tag)
  deriving DecidableEq, Repr

/-- SDK type `ec2.RunInstancesInput`, restricted to the fields this package reads or
writes; the remaining SDK fields are never touched by the package. -/
structure RunInstancesInput where
  ImageId : Ptr String
  InstanceType : Ptr String
  MaxCount : Ptr Int
  MinCount : Ptr Int
  SecurityGroupIds : Slice (Ptr String)
  SubnetId : Ptr String
  TagSpecifications : Slice (Ptr TagSpecification)
  deriving DecidableEq, Repr

/-- SDK type `ec2.Instance`, restricted to the field the package reads. -/
structure EC2Instance where
  InstanceId : Ptr String
  deriving DecidableEq, Repr

/-- SDK type `ec2.Reservation`, restricted to the field the package reads. -/
structure Reservation where
  Instances : Slice (Ptr EC2Instance)
  deriving DecidableEq, Repr

/-- A Go `map[string]string` as seen by one `range` statement: its entries in the order
that statement visits them (an order the Go runtime leaves unspecified), each key once. -/
structure GoMap where
  entries : List (String × String)
  nodup : (entries.map Prod.fst).Nodup

/-! ## Package `cloud` -/

/-- `const DefaultImageId`. -/
def DefaultImageId : String := "ami-0fb653ca2d3203ac1"

/-- `const DefaultInstanceType`. -/
def DefaultInstanceType : String := "t2.micro"

/-- `type Instance struct`. -/
structure Instance where
  Id : String
  deriving DecidableEq, Repr

/-- `type InstanceOption func(*ec2.RunInstancesInput)`: any function that mutates the
request it is handed. -/
abbrev InstanceOption := RunInstancesInput → RunInstancesInput

/-- `type client struct`: the embedded `ec2iface.EC2API`, of which the package calls
`RunInstances` only. -/
structure client where
  RunInstances : RunInstancesInput → Ptr Reservation × Option GoError

/-- `func WithImageId(imageId string) InstanceOption`. -/
def WithImageId (imageId : String) : InstanceOption :=
  fun rii => { rii with ImageId := awsString imageId }

/-- `func WithInstanceType(instanceType string) InstanceOption`. -/
def WithInstanceType (instanceType : String) : InstanceOption :=
  fun rii => { rii with InstanceType := awsString instanceType }

/-- `func WithSecurityGroups(securityGroupIds ...string) InstanceOption`: the list is
built by appending to an empty non-nil slice, then captured by the closure. -/
def WithSecurityGroups (securityGroupIds : List String) : InstanceOption :=
  let sgs : List (Ptr String) :=
    securityGroupIds.foldl (fun sgs sg => sgs ++ [awsString sg]) []
  fun rii => { rii with SecurityGroupIds := some sgs }

/-- `func WithSubnetId(subnetId string) InstanceOption`. -/
def WithSubnetId (subnetId : String) : InstanceOption :=
  fun rii => { rii with SubnetId := awsString subnetId }

/-- `func WithTags(tags map[string]string) InstanceOption`: one `ec2.Tag` is appended
per entry visited by `range`, then a single specification is captured by the closure. -/
def WithTags (tags : GoMap) : InstanceOption :=
  let ts : List (Ptr Tag) :=
    tags.entries.foldl
      (fun ts kv => ts ++ [some { Key := awsString kv.1, Value := awsString kv.2 }]) []
  fun rii =>
    { rii with
      TagSpecifications :=
        some [some { ResourceType := awsString "instance", Tags := some ts }] }

/-- `var WithDefaultImage`. -/
def WithDefaultImage : InstanceOption := WithImageId DefaultImageId

/-- `var WithDefaultInstanceType`. -/
def WithDefaultInstanceType : InstanceOption := WithInstanceType DefaultInstanceType

/-- The composite literal `constructInput` starts from: both counts 1, the rest zero. -/
def baseInput : RunInstancesInput :=
  { ImageId := none
    InstanceType := none
    MaxCount := awsInt64 1
    MinCount := awsInt64 1
    SecurityGroupIds := none
    SubnetId := none
    TagSpecifications := none }

/-- The loop `for _, opt := range opts { opt(out) }` of `constructInput`. -/
def applyOptions (opts : List InstanceOption) (out : RunInstancesInput) :
    RunInstancesInput :=
  opts.foldl (fun out opt => opt out) out

/-- `func constructInput(opts []InstanceOption) *ec2.RunInstancesInput`. -/
def constructInput (opts : List InstanceOption) : RunInstancesInput :=
  let out := applyOptions opts baseInput
  let out := if out.ImageId = none then WithDefaultImage out else out
  let out := if out.InstanceType = none then WithDefaultInstanceType out else out
  out

/-- `func (c *client) CreateInstance(opts ...InstanceOption) (*Instance, error)`. -/
def CreateInstance (c : client) (opts : List InstanceOption) :
    Except Panic (Ptr Instance × Option GoError) :=
  let input := constructInput opts
  match c.RunInstances input with
  | (_, some err) => .ok (none, some err)
  | (none, none) => .error .nilPointerDereference
  | (some res, none) =>
    let l := len res.Instances
    if l ≠ 1 then
      .ok (none, some (fmtErrorf_d "invalid number of instances in reservation: " l))
    else
      match index res.Instances 0 with
      | none => .error .indexOutOfRange
      | some none => .error .nilPointerDereference
      | some (some inst) =>
        match inst.InstanceId with
        | none => .error .nilPointerDereference
        | some id => .ok (some { Id := id }, none)

/-! ## Descriptions of calls to the five exported constructors -/

/-- A call to one of the five option constructors of the package, with its argument. -/
inductive ConstructorCall where
  | withImageId (imageId : String)
  | withInstanceType (instanceType : String)
  | withSecurityGroups (securityGroupIds : List String)
  | withSubnetId (subnetId : String)
  | withTags (tags : GoMap)

/-- The option a constructor call returns. -/
def ConstructorCall.build : ConstructorCall → InstanceOption
  | .withImageId s => WithImageId s
  | .withInstanceType s => WithInstanceType s
  | .withSecurityGroups ids => WithSecurityGroups ids
  | .withSubnetId s => WithSubnetId s
  | .withTags m => WithTags m

/-! ## Test doubles of the remote capability (src/cloud/aws_test.go) -/

/-- `ec2Mock.RunInstances`: always succeeds with the stored reservation. -/
def ec2Mock (r : Reservation) : client :=
  { RunInstances := fun _ => (some r, none) }

/-- `ec2ErrMock.RunInstances`: always fails with the error `mock error`. -/
def ec2ErrMock : client :=
  { RunInstances := fun _ => (none, some (.errorString "mock error")) }

/-! ## Specification-side vocabulary for the request builder -/

/-- An option leaves both count bounds of every request as it found them. -/
def PreservesCounts (o : InstanceOption) : Prop :=
  ∀ r : RunInstancesInput, (o r).MinCount = r.MinCount ∧ (o r).MaxCount = r.MaxCount

/-- The image identifier a constructor call targets, if it targets that field. -/
def ConstructorCall.imageIdArg : ConstructorCall → Option String
  | .withImageId s => some s
  | _ => none

/-- The instance type a constructor call targets, if it targets that field. -/
def ConstructorCall.instanceTypeArg : ConstructorCall → Option String
  | .withInstanceType s => some s
  | _ => none

/-- The security-group identifiers a constructor call targets, if it targets that field. -/
def ConstructorCall.securityGroupsArg : ConstructorCall → Option (List String)
  | .withSecurityGroups ids => some ids
  | _ => none

/-- The subnet identifier a constructor call targets, if it targets that field. -/
def ConstructorCall.subnetIdArg : ConstructorCall → Option String
  | .withSubnetId s => some s
  | _ => none

/-- The tag mapping a constructor call targets, if it targets that field. -/
def ConstructorCall.tagsArg : ConstructorCall → Option GoMap
  | .withTags m => some m
  | _ => none

/-- Spec wording "the value written by the last option in the sequence that targets that
field": the argument of the last call selected by `sel`, or `none` when no call of the
sequence targets the field. -/
def lastWrite {α : Type} (sel : ConstructorCall → Option α) (cs : List ConstructorCall) :
    Option α :=
  (cs.filterMap sel).getLast?

/-- The security-group slice holding the identifiers `ids`, in order. -/
def securityGroupSlice (ids : List String) : List (Ptr String) :=
  ids.map fun sg => some sg

/-- The tag-specification slice for the mapping `m`: one specification of resource type
`instance` with one tag per entry of `m`, in the order the entries were visited. -/
def tagSpecificationSlice (m : GoMap) : List (Ptr TagSpecification) :=
  [some { ResourceType := some "instance",
          Tags := some (m.entries.map fun kv => some { Key := some kv.1, Value := some kv.2 }) }]

/-! ## Specification-side vocabulary for tags and independence -/

/-- The keys of a Go map, in the order the `range` statement visits them. -/
def GoMap.keys (m : GoMap) : List String :=
  m.entries.map Prod.fst

/-- Go map lookup `v, ok := m[k]`: the value the map holds for `k`, if any. -/
def GoMap.lookup (m : GoMap) (k : String) : Option String :=
  (m.entries.find? fun kv => decide (kv.1 = k)).map Prod.snd

/-- The key an element of a tag slice carries, if the element and its key are non-nil. -/
def tagKey (t : Ptr Tag) : Option String :=
  t.bind Tag.Key

/-- The request fields that the option constructors of the package write. -/
inductive Field where
  | imageId
  | instanceType
  | securityGroupIds
  | subnetId
  | tagSpecifications
  deriving DecidableEq, Repr

/-- The field a constructor call targets. -/
def ConstructorCall.target : ConstructorCall → Field
  | .withImageId _ => .imageId
  | .withInstanceType _ => .instanceType
  | .withSecurityGroups _ => .securityGroupIds
  | .withSubnetId _ => .subnetId
  | .withTags _ => .tagSpecifications

/-! ## The launcher `CreateInstance` -/

/-- C1: when `RunInstances`, called on the built request, succeeds with a reservation
holding exactly one instance whose identifier is `s`, `CreateInstance` returns
`Instance{Id: s}` and a nil error, whatever the options are. -/
theorem CreateInstance_single_instance (c : client) (opts : List InstanceOption)
    (s : String)
    (h : c.RunInstances (constructInput opts) =
      (some { Instances := some [some { InstanceId := some s }] }, none)) :
    CreateInstance c opts = .ok (some { Id := s }, none) := by
  simp [CreateInstance, h, len, index]

/-- Witness of C1 on the test double holding the reservation with `i-abcdefg`. -/
theorem CreateInstance_single_instance_witness :
    CreateInstance (ec2Mock { Instances := some [some { InstanceId := some "i-abcdefg" }] })
      [WithSubnetId "subnet-12345"] = .ok (some { Id := "i-abcdefg" }, none) :=
  CreateInstance_single_instance _ _ "i-abcdefg" rfl

/-- C2: when `RunInstances`, called on the built request, fails with error `e`,
`CreateInstance` returns a nil instance together with that very error `e`. -/
theorem CreateInstance_remote_error (c : client) (opts : List InstanceOption)
    (e : GoError) (h : (c.RunInstances (constructInput opts)).2 = some e) :
    CreateInstance c opts = .ok (none, some e) := by
  rcases hr : c.RunInstances (constructInput opts) with ⟨res, err⟩
  rw [hr] at h
  simp only at h
  subst h
  simp only [CreateInstance, hr]

/-- Witness of C2 on the failing test double. -/
theorem CreateInstance_remote_error_witness :
    CreateInstance ec2ErrMock [WithImageId "ami-12345"] =
      .ok (none, some (.errorString "mock error")) :=
  CreateInstance_remote_error ec2ErrMock _ (.errorString "mock error") rfl

/-- C3: when `RunInstances` succeeds with a reservation whose instance list has length
`n` and `n` is not 1 (zero as well as two or more), `CreateInstance` returns a nil
instance and the error whose message is `invalid number of instances in reservation: `
followed by `n` in decimal; no instance of the list is returned. -/
theorem CreateInstance_wrong_count (c : client) (opts : List InstanceOption)
    (res : Reservation) (n : Nat)
    (h : c.RunInstances (constructInput opts) = (some res, none))
    (hlen : len res.Instances = n) (hn : n ≠ 1) :
    ∃ e : GoError,
      CreateInstance c opts = .ok (none, some e) ∧
      e.Error = "invalid number of instances in reservation: " ++ toString n := by
  refine ⟨fmtErrorf_d "invalid number of instances in reservation: " n, ?_, rfl⟩
  simp [CreateInstance, h, hlen, hn]

/-- Witness of C3 on a reservation holding two instances: the count 2 is reported and
the first instance is not returned. -/
theorem CreateInstance_wrong_count_witness :
    ∃ e : GoError,
      CreateInstance
          (ec2Mock { Instances := some [some { InstanceId := some "i-1" },
                                        some { InstanceId := some "i-2" }] }) [] =
        .ok (none, some e) ∧
      e.Error = "invalid number of instances in reservation: 2" :=
  CreateInstance_wrong_count _ [] _ 2 rfl rfl (by decide)

/-- C4 (code defect): on a successful response holding exactly one instance descriptor
that carries no identifier, `CreateInstance` returns neither an instance nor an error:
the dereference `*res.Instances[0].InstanceId` panics, for every option sequence. -/
theorem CreateInstance_missing_id_panics (opts : List InstanceOption) :
    CreateInstance (ec2Mock { Instances := some [some { InstanceId := none }] }) opts =
      .error .nilPointerDereference := by
  rfl

/-! ## The request builder `constructInput` -/

/-- Appending one image of each element to an accumulator is mapping. -/
theorem foldl_append_singleton {α β : Type} (f : α → β) (xs : List α) (acc : List β) :
    xs.foldl (fun acc x => acc ++ [f x]) acc = acc ++ xs.map f := by
  induction xs generalizing acc with
  | nil => simp
  | cons x xs ih => simp [ih]

/-- What the closure returned by `WithSecurityGroups` writes. -/
theorem WithSecurityGroups_apply (ids : List String) (r : RunInstancesInput) :
    WithSecurityGroups ids r = { r with SecurityGroupIds := some (securityGroupSlice ids) } := by
  simp [WithSecurityGroups, securityGroupSlice, awsString, foldl_append_singleton]

/-- What the closure returned by `WithTags` writes. -/
theorem WithTags_apply (m : GoMap) (r : RunInstancesInput) :
    WithTags m r = { r with TagSpecifications := some (tagSpecificationSlice m) } := by
  simp [WithTags, tagSpecificationSlice, awsString, foldl_append_singleton]

/-- The loop applied to a sequence extended by one option. -/
theorem applyOptions_concat (opts : List InstanceOption) (o : InstanceOption)
    (r : RunInstancesInput) :
    applyOptions (opts ++ [o]) r = o (applyOptions opts r) := by
  simp [applyOptions]

/-- The loop keeps the count bounds when every option does. -/
theorem applyOptions_counts (opts : List InstanceOption) (r : RunInstancesInput)
    (h : ∀ o ∈ opts, PreservesCounts o) :
    (applyOptions opts r).MinCount = r.MinCount ∧
      (applyOptions opts r).MaxCount = r.MaxCount := by
  induction opts generalizing r with
  | nil => exact ⟨rfl, rfl⟩
  | cons o opts ih =>
    have ho := h o (List.mem_cons_self o opts)
    have ht := ih (o r) (fun p hp => h p (List.mem_cons_of_mem o hp))
    exact ⟨ht.1.trans (ho r).1, ht.2.trans (ho r).2⟩

/-- Every option built by one of the five constructors keeps the count bounds. -/
theorem ConstructorCall.build_preservesCounts (c : ConstructorCall) :
    PreservesCounts c.build := by
  intro r
  cases c <;> exact ⟨rfl, rfl⟩

/-- The defaulting steps of `constructInput` never touch the count bounds. -/
theorem constructInput_counts_eq (opts : List InstanceOption) :
    (constructInput opts).MinCount = (applyOptions opts baseInput).MinCount ∧
      (constructInput opts).MaxCount = (applyOptions opts baseInput).MaxCount := by
  unfold constructInput
  simp only
  split <;> split <;> exact ⟨rfl, rfl⟩

/-- C5, as stated, fails: `InstanceOption` is any function on the request, and an option
that writes `MinCount` yields a request whose minimum count is not 1. -/
theorem constructInput_counts_counterexample :
    ¬ ((constructInput [fun rii => { rii with MinCount := awsInt64 2 }]).MinCount = some 1 ∧
       (constructInput [fun rii => { rii with MinCount := awsInt64 2 }]).MaxCount = some 1) := by
  decide

/-- C5, amended: for every option sequence in which each option is built by one of the
five constructors or otherwise leaves the count bounds as it found them, the request
returned by `constructInput` has `MinCount = 1` and `MaxCount = 1`. -/
theorem constructInput_counts (opts : List InstanceOption)
    (h : ∀ o ∈ opts, (∃ c : ConstructorCall, o = c.build) ∨ PreservesCounts o) :
    (constructInput opts).MinCount = some 1 ∧ (constructInput opts).MaxCount = some 1 := by
  have hp : ∀ o ∈ opts, PreservesCounts o := by
    intro o ho
    rcases h o ho with ⟨c, rfl⟩ | hc
    · exact c.build_preservesCounts
    · exact hc
  have h1 := constructInput_counts_eq opts
  have h2 := applyOptions_counts opts baseInput hp
  exact ⟨h1.1.trans h2.1, h1.2.trans h2.2⟩

/-- Witness of C5 on one option from each of the five constructors. -/
theorem constructInput_counts_witness :
    (constructInput
        [WithImageId "ami-12345", WithInstanceType "t2.testtype",
         WithSecurityGroups ["sg-12345", "sg-67890"], WithSubnetId "subnet-12345",
         WithTags ⟨[("key-1", "value-1")], by simp⟩]).MinCount = some 1 ∧
    (constructInput
        [WithImageId "ami-12345", WithInstanceType "t2.testtype",
         WithSecurityGroups ["sg-12345", "sg-67890"], WithSubnetId "subnet-12345",
         WithTags ⟨[("key-1", "value-1")], by simp⟩]).MaxCount = some 1 :=
  constructInput_counts _ (by
    intro o ho
    simp only [List.mem_cons, List.mem_singleton, List.not_mem_nil, or_false] at ho
    rcases ho with rfl | rfl | rfl | rfl | rfl
    · exact Or.inl ⟨.withImageId _, rfl⟩
    · exact Or.inl ⟨.withInstanceType _, rfl⟩
    · exact Or.inl ⟨.withSecurityGroups _, rfl⟩
    · exact Or.inl ⟨.withSubnetId _, rfl⟩
    · exact Or.inl ⟨.withTags _, rfl⟩)

/-- C6, as stated, fails: the empty image identifier passed to `WithImageId` is written
unchecked, so the built request has an image identifier that is set but empty. -/
theorem constructInput_nonempty_counterexample :
    ¬ (∃ i t : String,
        (constructInput [WithImageId ""]).ImageId = some i ∧
        (constructInput [WithImageId ""]).InstanceType = some t ∧ i ≠ "" ∧ t ≠ "") := by
  rintro ⟨i, t, hi, -, hne, -⟩
  have h : (constructInput [WithImageId ""]).ImageId = some "" := rfl
  rw [h] at hi
  exact hne (Option.some.inj hi).symm

/-- C6, amended: for every option sequence the request returned by `constructInput` has an
image identifier and an instance type that are both set; either of them is the empty
string only when the options themselves left that field set to the empty string (the
defaults are non-empty, and strings written by options are not validated). -/
theorem constructInput_image_type_set (opts : List InstanceOption) :
    ∃ i t : String,
      (constructInput opts).ImageId = some i ∧
      (constructInput opts).InstanceType = some t ∧
      (i = "" → (applyOptions opts baseInput).ImageId = some "") ∧
      (t = "" → (applyOptions opts baseInput).InstanceType = some "") := by
  unfold constructInput
  simp only
  rcases hi : (applyOptions opts baseInput).ImageId with _ | i <;>
    rcases ht : (applyOptions opts baseInput).InstanceType with _ | t
  · refine ⟨DefaultImageId, DefaultInstanceType, ?_, ?_, ?_, ?_⟩ <;>
      simp [hi, ht, WithDefaultImage, WithDefaultInstanceType, WithImageId, WithInstanceType,
        awsString, DefaultImageId, DefaultInstanceType]
  · refine ⟨DefaultImageId, t, ?_, ?_, ?_, ?_⟩ <;>
      simp [hi, ht, WithDefaultImage, WithDefaultInstanceType, WithImageId, WithInstanceType,
        awsString, DefaultImageId, DefaultInstanceType]
  · refine ⟨i, DefaultInstanceType, ?_, ?_, ?_, ?_⟩ <;>
      simp [hi, ht, WithDefaultImage, WithDefaultInstanceType, WithImageId, WithInstanceType,
        awsString, DefaultImageId, DefaultInstanceType]
  · refine ⟨i, t, ?_, ?_, ?_, ?_⟩ <;>
      simp [hi, ht, WithDefaultImage, WithDefaultInstanceType, WithImageId, WithInstanceType,
        awsString, DefaultImageId, DefaultInstanceType]

/-- C7: `constructInput` of the empty (or nil) option sequence is exactly the request with
both counts 1, the default image identifier `ami-0fb653ca2d3203ac1`, the default instance
type `t2.micro`, and security groups, subnet and tag specifications unset. -/
theorem constructInput_nil :
    constructInput [] =
      { ImageId := some "ami-0fb653ca2d3203ac1"
        InstanceType := some "t2.micro"
        MaxCount := some 1
        MinCount := some 1
        SecurityGroupIds := none
        SubnetId := none
        TagSpecifications := none } ∧
    DefaultImageId = "ami-0fb653ca2d3203ac1" ∧ DefaultInstanceType = "t2.micro" := by
  exact ⟨rfl, rfl, rfl⟩

/-- C8: for every string `s`, the empty string included, `constructInput [WithImageId s]`
has image identifier `s` and the default instance type, and
`constructInput [WithInstanceType s]` has instance type `s` and the default image
identifier. -/
theorem constructInput_explicit_overrides (s : String) :
    (constructInput [WithImageId s]).ImageId = some s ∧
    (constructInput [WithImageId s]).InstanceType = some DefaultInstanceType ∧
    (constructInput [WithInstanceType s]).InstanceType = some s ∧
    (constructInput [WithInstanceType s]).ImageId = some DefaultImageId := by
  refine ⟨rfl, rfl, rfl, rfl⟩

/-- The last write of a sequence extended by a call that targets the field. -/
theorem lastWrite_concat_some {α : Type} (sel : ConstructorCall → Option α)
    (cs : List ConstructorCall) (c : ConstructorCall) (v : α) (h : sel c = some v) :
    lastWrite sel (cs ++ [c]) = some v := by
  simp [lastWrite, List.filterMap_append, h]

/-- The last write of a sequence extended by a call that targets another field. -/
theorem lastWrite_concat_none {α : Type} (sel : ConstructorCall → Option α)
    (cs : List ConstructorCall) (c : ConstructorCall) (h : sel c = none) :
    lastWrite sel (cs ++ [c]) = lastWrite sel cs := by
  simp [lastWrite, List.filterMap_append, h]

/-- The request the loop of `constructInput` leaves behind on constructor-built options:
each field holds the last write that targets it, the counts stay 1. -/
theorem applyOptions_build (cs : List ConstructorCall) :
    applyOptions (cs.map ConstructorCall.build) baseInput =
      { ImageId := lastWrite ConstructorCall.imageIdArg cs
        InstanceType := lastWrite ConstructorCall.instanceTypeArg cs
        MaxCount := some 1
        MinCount := some 1
        SecurityGroupIds :=
          (lastWrite ConstructorCall.securityGroupsArg cs).map securityGroupSlice
        SubnetId := lastWrite ConstructorCall.subnetIdArg cs
        TagSpecifications :=
          (lastWrite ConstructorCall.tagsArg cs).map tagSpecificationSlice } := by
  induction cs using List.reverseRecOn with
  | nil => rfl
  | append_singleton cs c ih =>
    rw [List.map_append, List.map_singleton, applyOptions_concat, ih]
    cases c with
    | withImageId s =>
      rw [lastWrite_concat_some ConstructorCall.imageIdArg cs (.withImageId s) s rfl,
        lastWrite_concat_none ConstructorCall.instanceTypeArg cs (.withImageId s) rfl,
        lastWrite_concat_none ConstructorCall.securityGroupsArg cs (.withImageId s) rfl,
        lastWrite_concat_none ConstructorCall.subnetIdArg cs (.withImageId s) rfl,
        lastWrite_concat_none ConstructorCall.tagsArg cs (.withImageId s) rfl]
      rfl
    | withInstanceType s =>
      rw [lastWrite_concat_some ConstructorCall.instanceTypeArg cs (.withInstanceType s) s rfl,
        lastWrite_concat_none ConstructorCall.imageIdArg cs (.withInstanceType s) rfl,
        lastWrite_concat_none ConstructorCall.securityGroupsArg cs (.withInstanceType s) rfl,
        lastWrite_concat_none ConstructorCall.subnetIdArg cs (.withInstanceType s) rfl,
        lastWrite_concat_none ConstructorCall.tagsArg cs (.withInstanceType s) rfl]
      rfl
    | withSecurityGroups ids =>
      rw [lastWrite_concat_some ConstructorCall.securityGroupsArg cs (.withSecurityGroups ids) ids rfl,
        lastWrite_concat_none ConstructorCall.imageIdArg cs (.withSecurityGroups ids) rfl,
        lastWrite_concat_none ConstructorCall.instanceTypeArg cs (.withSecurityGroups ids) rfl,
        lastWrite_concat_none ConstructorCall.subnetIdArg cs (.withSecurityGroups ids) rfl,
        lastWrite_concat_none ConstructorCall.tagsArg cs (.withSecurityGroups ids) rfl]
      exact WithSecurityGroups_apply ids _
    | withSubnetId s =>
      rw [lastWrite_concat_some ConstructorCall.subnetIdArg cs (.withSubnetId s) s rfl,
        lastWrite_concat_none ConstructorCall.imageIdArg cs (.withSubnetId s) rfl,
        lastWrite_concat_none ConstructorCall.instanceTypeArg cs (.withSubnetId s) rfl,
        lastWrite_concat_none ConstructorCall.securityGroupsArg cs (.withSubnetId s) rfl,
        lastWrite_concat_none ConstructorCall.tagsArg cs (.withSubnetId s) rfl]
      rfl
    | withTags m =>
      rw [lastWrite_concat_some ConstructorCall.tagsArg cs (.withTags m) m rfl,
        lastWrite_concat_none ConstructorCall.imageIdArg cs (.withTags m) rfl,
        lastWrite_concat_none ConstructorCall.instanceTypeArg cs (.withTags m) rfl,
        lastWrite_concat_none ConstructorCall.securityGroupsArg cs (.withTags m) rfl,
        lastWrite_concat_none ConstructorCall.subnetIdArg cs (.withTags m) rfl]
      exact WithTags_apply m _

/-- C9: for every sequence of options built from the five constructors, each field of the
request returned by `constructInput` is the value written by the last option of the
sequence that targets it; with no such option the image identifier and the instance type
are the defaults, and security groups, subnet and tag specifications are unset (the
counts, which no constructor targets, are 1). -/
theorem constructInput_last_write_wins (cs : List ConstructorCall) :
    constructInput (cs.map ConstructorCall.build) =
      { ImageId := some ((lastWrite ConstructorCall.imageIdArg cs).getD DefaultImageId)
        InstanceType :=
          some ((lastWrite ConstructorCall.instanceTypeArg cs).getD DefaultInstanceType)
        MaxCount := some 1
        MinCount := some 1
        SecurityGroupIds :=
          (lastWrite ConstructorCall.securityGroupsArg cs).map securityGroupSlice
        SubnetId := lastWrite ConstructorCall.subnetIdArg cs
        TagSpecifications :=
          (lastWrite ConstructorCall.tagsArg cs).map tagSpecificationSlice } := by
  unfold constructInput
  rw [applyOptions_build]
  rcases lastWrite ConstructorCall.imageIdArg cs with _ | i <;>
    rcases lastWrite ConstructorCall.instanceTypeArg cs with _ | t <;> rfl

/-- C10: for every list `ids`, `constructInput [WithSecurityGroups ids]` has a security-group
list holding exactly those identifiers in the same order (so of the same length), and for
all lists `a` and `b`, `constructInput [WithSecurityGroups a, WithSecurityGroups b]` has the
security-group list of `b` alone. -/
theorem constructInput_security_groups (ids a b : List String) :
    (constructInput [WithSecurityGroups ids]).SecurityGroupIds =
        some (ids.map fun sg => some sg) ∧
    len (constructInput [WithSecurityGroups ids]).SecurityGroupIds = ids.length ∧
    (constructInput [WithSecurityGroups a, WithSecurityGroups b]).SecurityGroupIds =
        some (b.map fun sg => some sg) := by
  refine ⟨?_, ?_, ?_⟩
  · simp [constructInput, applyOptions, WithSecurityGroups_apply, securityGroupSlice,
      baseInput, WithDefaultImage, WithDefaultInstanceType, WithImageId, WithInstanceType]
  · simp [constructInput, applyOptions, WithSecurityGroups_apply, securityGroupSlice,
      baseInput, WithDefaultImage, WithDefaultInstanceType, WithImageId, WithInstanceType, len]
  · simp [constructInput, applyOptions, WithSecurityGroups_apply, securityGroupSlice,
      baseInput, WithDefaultImage, WithDefaultInstanceType, WithImageId, WithInstanceType]

/-! ## Tags -/

/-- With each key held once, an entry belongs to the map exactly when looking its key up
gives its value. -/
theorem GoMap.lookup_eq_some_iff (m : GoMap) (k v : String) :
    m.lookup k = some v ↔ (k, v) ∈ m.entries := by
  obtain ⟨entries, nodup⟩ := m
  unfold GoMap.lookup
  simp only
  induction entries with
  | nil => simp
  | cons kv rest ih =>
    obtain ⟨k0, v0⟩ := kv
    rw [List.map_cons, List.nodup_cons] at nodup
    by_cases hk : k0 = k
    · subst hk
      have hnot : (k0, v) ∉ rest := fun hmem =>
        nodup.1 (List.mem_map.mpr ⟨(k0, v), hmem, rfl⟩)
      simp [hnot, eq_comm]
    · have hne : ¬ (k = k0) := fun h => hk h.symm
      simp [hk, hne, ih nodup.2]

/-- C11: for every string-to-string mapping `m` (in particular every non-empty one) and
every order in which `range` visits it, `constructInput [WithTags m]` has exactly one tag
specification, of resource type `instance`, whose tag list has as many entries as `m` has
keys, no key twice, every entry a key of `m` with the value `m` maps it to, and every key
of `m` present; the order of the entries is not fixed: two visiting orders of one mapping
give different requests. -/
theorem constructInput_WithTags :
    (∀ m : GoMap, ∃ ts : List (Ptr Tag),
      (constructInput [WithTags m]).TagSpecifications =
        some [some { ResourceType := some "instance", Tags := some ts }] ∧
      ts.length = m.keys.length ∧
      (ts.map tagKey).Nodup ∧
      (∀ t ∈ ts, ∃ k v : String,
        t = some { Key := some k, Value := some v } ∧ m.lookup k = some v) ∧
      (∀ k v : String, m.lookup k = some v →
        some { Key := some k, Value := some v } ∈ ts)) ∧
    (∃ m₁ m₂ : GoMap, m₁.entries.Perm m₂.entries ∧
      constructInput [WithTags m₁] ≠ constructInput [WithTags m₂]) := by
  constructor
  · intro m
    refine ⟨m.entries.map fun kv => some { Key := some kv.1, Value := some kv.2 },
      ?_, ?_, ?_, ?_, ?_⟩
    · simp [constructInput, applyOptions, WithTags_apply, tagSpecificationSlice, baseInput,
        WithDefaultImage, WithDefaultInstanceType, WithImageId, WithInstanceType]
    · simp [GoMap.keys]
    · have hk : (m.entries.map fun kv => (some { Key := some kv.1, Value := some kv.2 } :
          Ptr Tag)).map tagKey = m.keys.map some := by
        simp [GoMap.keys, tagKey, Function.comp_def]
      rw [hk]
      exact m.nodup.map (Option.some_injective String)
    · intro t ht
      obtain ⟨⟨k, v⟩, hmem, rfl⟩ := List.mem_map.mp ht
      exact ⟨k, v, rfl, (m.lookup_eq_some_iff k v).mpr hmem⟩
    · intro k v hkv
      exact List.mem_map.mpr ⟨(k, v), (m.lookup_eq_some_iff k v).mp hkv, rfl⟩
  · refine ⟨⟨[("key-1", "value-1"), ("key-2", "value-2")], by decide⟩,
      ⟨[("key-2", "value-2"), ("key-1", "value-1")], by decide⟩, List.Perm.swap _ _ _, ?_⟩
    decide

/-! ## Independence of options, validation, defaults and empty arguments -/

/-- The loop of `constructInput` on a sequence split around two adjacent options. -/
theorem applyOptions_adjacent (pre post : List InstanceOption) (o₁ o₂ : InstanceOption)
    (r : RunInstancesInput) :
    applyOptions (pre ++ o₁ :: o₂ :: post) r =
      applyOptions post (o₂ (o₁ (applyOptions pre r))) := by
  simp [applyOptions]

/-- C12: two options built by constructors that target different fields commute on every
request, and swapping two such adjacent options anywhere in an option sequence leaves the
result of `constructInput` unchanged. -/
theorem constructInput_independent_commute (c₁ c₂ : ConstructorCall)
    (h : c₁.target ≠ c₂.target) :
    (∀ r : RunInstancesInput, c₂.build (c₁.build r) = c₁.build (c₂.build r)) ∧
    (∀ pre post : List InstanceOption,
      constructInput (pre ++ c₁.build :: c₂.build :: post) =
        constructInput (pre ++ c₂.build :: c₁.build :: post)) := by
  have hcomm : ∀ r : RunInstancesInput, c₂.build (c₁.build r) = c₁.build (c₂.build r) := by
    intro r
    cases c₁ <;> cases c₂ <;> first
      | exact absurd rfl h
      | rfl
  refine ⟨hcomm, fun pre post => ?_⟩
  unfold constructInput
  rw [applyOptions_adjacent, applyOptions_adjacent, hcomm]

/-- Witness of C12 on `WithImageId` and `WithTags`, swapped between two other options. -/
theorem constructInput_independent_commute_witness :
    (∀ r : RunInstancesInput,
      WithTags ⟨[("key-1", "value-1"), ("key-2", "value-2")], by decide⟩
          (WithImageId "ami-12345" r) =
        WithImageId "ami-12345"
          (WithTags ⟨[("key-1", "value-1"), ("key-2", "value-2")], by decide⟩ r)) ∧
    (∀ pre post : List InstanceOption,
      constructInput (pre ++ WithImageId "ami-12345" ::
          WithTags ⟨[("key-1", "value-1"), ("key-2", "value-2")], by decide⟩ :: post) =
        constructInput (pre ++
          WithTags ⟨[("key-1", "value-1"), ("key-2", "value-2")], by decide⟩ ::
          WithImageId "ami-12345" :: post)) :=
  constructInput_independent_commute (.withImageId "ami-12345")
    (.withTags ⟨[("key-1", "value-1"), ("key-2", "value-2")], by decide⟩) (by decide)

/-- C13 (code defect, the one of C4): on the client whose `RunInstances` succeeds with one
instance descriptor that carries no identifier, the result of `CreateInstance` is not
`validate` applied to the outcome of that call, whatever function from outcomes to
(instance, error) pairs `validate` is: the call panics and returns no pair at all. -/
theorem CreateInstance_ne_validate
    (validate : Ptr Reservation × Option GoError → Ptr Instance × Option GoError)
    (opts : List InstanceOption) :
    CreateInstance (ec2Mock { Instances := some [some { InstanceId := none }] }) opts ≠
      .ok (validate
        ((ec2Mock { Instances := some [some { InstanceId := none }] }).RunInstances
          (constructInput opts))) := by
  intro h
  have hpanic :
      (Except.error Panic.nilPointerDereference :
        Except Panic (Ptr Instance × Option GoError)) =
      .ok (validate
        ((ec2Mock { Instances := some [some { InstanceId := none }] }).RunInstances
          (constructInput opts))) := h
  cases hpanic

/-- The loop of `constructInput` on constructor-built options, started from any request:
a field some option targets holds its last write, every other field is as it was. -/
theorem applyOptions_build_from (cs : List ConstructorCall) (r : RunInstancesInput) :
    applyOptions (cs.map ConstructorCall.build) r =
      { ImageId := (lastWrite ConstructorCall.imageIdArg cs).or r.ImageId
        InstanceType := (lastWrite ConstructorCall.instanceTypeArg cs).or r.InstanceType
        MaxCount := r.MaxCount
        MinCount := r.MinCount
        SecurityGroupIds :=
          ((lastWrite ConstructorCall.securityGroupsArg cs).map securityGroupSlice).or
            r.SecurityGroupIds
        SubnetId := (lastWrite ConstructorCall.subnetIdArg cs).or r.SubnetId
        TagSpecifications :=
          ((lastWrite ConstructorCall.tagsArg cs).map tagSpecificationSlice).or
            r.TagSpecifications } := by
  induction cs using List.reverseRecOn with
  | nil => rfl
  | append_singleton cs c ih =>
    rw [List.map_append, List.map_singleton, applyOptions_concat, ih]
    cases c with
    | withImageId s =>
      rw [lastWrite_concat_some ConstructorCall.imageIdArg cs (.withImageId s) s rfl,
        lastWrite_concat_none ConstructorCall.instanceTypeArg cs (.withImageId s) rfl,
        lastWrite_concat_none ConstructorCall.securityGroupsArg cs (.withImageId s) rfl,
        lastWrite_concat_none ConstructorCall.subnetIdArg cs (.withImageId s) rfl,
        lastWrite_concat_none ConstructorCall.tagsArg cs (.withImageId s) rfl]
      rfl
    | withInstanceType s =>
      rw [lastWrite_concat_some ConstructorCall.instanceTypeArg cs (.withInstanceType s) s rfl,
        lastWrite_concat_none ConstructorCall.imageIdArg cs (.withInstanceType s) rfl,
        lastWrite_concat_none ConstructorCall.securityGroupsArg cs (.withInstanceType s) rfl,
        lastWrite_concat_none ConstructorCall.subnetIdArg cs (.withInstanceType s) rfl,
        lastWrite_concat_none ConstructorCall.tagsArg cs (.withInstanceType s) rfl]
      rfl
    | withSecurityGroups ids =>
      rw [lastWrite_concat_some ConstructorCall.securityGroupsArg cs (.withSecurityGroups ids) ids rfl,
        lastWrite_concat_none ConstructorCall.imageIdArg cs (.withSecurityGroups ids) rfl,
        lastWrite_concat_none ConstructorCall.instanceTypeArg cs (.withSecurityGroups ids) rfl,
        lastWrite_concat_none ConstructorCall.subnetIdArg cs (.withSecurityGroups ids) rfl,
        lastWrite_concat_none ConstructorCall.tagsArg cs (.withSecurityGroups ids) rfl]
      exact WithSecurityGroups_apply ids _
    | withSubnetId s =>
      rw [lastWrite_concat_some ConstructorCall.subnetIdArg cs (.withSubnetId s) s rfl,
        lastWrite_concat_none ConstructorCall.imageIdArg cs (.withSubnetId s) rfl,
        lastWrite_concat_none ConstructorCall.instanceTypeArg cs (.withSubnetId s) rfl,
        lastWrite_concat_none ConstructorCall.securityGroupsArg cs (.withSubnetId s) rfl,
        lastWrite_concat_none ConstructorCall.tagsArg cs (.withSubnetId s) rfl]
      rfl
    | withTags m =>
      rw [lastWrite_concat_some ConstructorCall.tagsArg cs (.withTags m) m rfl,
        lastWrite_concat_none ConstructorCall.imageIdArg cs (.withTags m) rfl,
        lastWrite_concat_none ConstructorCall.instanceTypeArg cs (.withTags m) rfl,
        lastWrite_concat_none ConstructorCall.securityGroupsArg cs (.withTags m) rfl,
        lastWrite_concat_none ConstructorCall.subnetIdArg cs (.withTags m) rfl]
      exact WithTags_apply m _

/-- C14: for every sequence of options built from the five constructors, prepending the
two package defaults `WithDefaultImage` and `WithDefaultInstanceType` does not change the
request `constructInput` returns. -/
theorem constructInput_prepend_defaults (cs : List ConstructorCall) :
    constructInput ([WithDefaultImage, WithDefaultInstanceType] ++
        cs.map ConstructorCall.build) =
      constructInput (cs.map ConstructorCall.build) := by
  have hstart : applyOptions ([WithDefaultImage, WithDefaultInstanceType] ++
      cs.map ConstructorCall.build) baseInput =
      applyOptions (cs.map ConstructorCall.build)
        (WithDefaultInstanceType (WithDefaultImage baseInput)) := rfl
  unfold constructInput
  rw [hstart, applyOptions_build_from, applyOptions_build_from]
  rcases lastWrite ConstructorCall.imageIdArg cs with _ | i <;>
    rcases lastWrite ConstructorCall.instanceTypeArg cs with _ | t <;> rfl

/-- C15: `constructInput [WithSecurityGroups()]` has a security-group list that is set
(non-nil) and of length 0; `constructInput [WithTags m]` for the empty mapping `m` has
exactly one tag specification, of resource type `instance`, with a set tag list of length
0; both requests differ from `constructInput` of the empty sequence. -/
theorem constructInput_empty_arguments :
    (constructInput [WithSecurityGroups []]).SecurityGroupIds = some [] ∧
    len (constructInput [WithSecurityGroups []]).SecurityGroupIds = 0 ∧
    (constructInput [WithTags ⟨[], List.nodup_nil⟩]).TagSpecifications =
      some [some { ResourceType := some "instance", Tags := some [] }] ∧
    constructInput [WithSecurityGroups []] ≠ constructInput [] ∧
    constructInput [WithTags ⟨[], List.nodup_nil⟩] ≠ constructInput [] := by
  refine ⟨rfl, rfl, rfl, ?_, ?_⟩ <;> decide

end cloud
